import Mathlib

/-!
Shallow embedding of the acquisitions chatbot core
(`backend/data/store.py`, `backend/llm/vanessa.py`,
`backend/llm/realtime_openai.py`, `backend/transport/twilio_quart.py`).

The relational store is modelled as in-memory lists; SQL sessions and
timestamps (`created_at` / `updated_at`) are elided because no claim
mentions them.  Python string helpers `str.lower` / `str.strip` are
modelled over the character list (ASCII approximation of `str.lower`).
JSON payloads of audit events are modelled as association lists of
string pairs.
-/

set_option autoImplicit false

namespace Acq

/-- Python `str.lower` (ASCII approximation, as used on interest tags). -/
def py_lower (s : String) : String :=
  String.mk (s.data.map Char.toLower)

/-- Python `str.strip`: drop leading and trailing whitespace. -/
def py_strip (s : String) : String :=
  String.mk (((s.data.dropWhile Char.isWhitespace).reverse.dropWhile Char.isWhitespace).reverse)

/-- `backend/data/models.py` `Lead` row (timestamps elided). -/
structure Lead where
  id : Nat
  phone : String
  interest : String := ""
  price_range : String := ""
  timing : String := ""
  condition : String := ""
  owner_status : String := ""
  qualified : Bool := false
deriving Repr, DecidableEq

/-- `backend/data/models.py` `Callback` row (timestamp elided). -/
structure Callback where
  id : Nat
  lead_id : Nat
  window : String := ""
  notes : String := ""
deriving Repr, DecidableEq

/-- `backend/data/models.py` `CallEvent` row; the JSON payload is modelled
as an association list of string pairs (timestamp elided). -/
structure CallEvent where
  call_sid : String
  event_type : String
  payload : List (String × String)
deriving Repr, DecidableEq

/-- The relational database behind `backend/data/store.py`:
the three tables plus autoincrement counters for the primary keys. -/
structure Store where
  leads : List Lead := []
  callbacks : List Callback := []
  events : List CallEvent := []
  nextLeadId : Nat := 1
  nextCallbackId : Nat := 1
deriving Repr, DecidableEq

def emptyStore : Store := {}

/-- `store.save_event`: append one `CallEvent` row (`call_sid or ""` is the
caller's responsibility in the Python code; here the sid is passed as-is). -/
def save_event (s : Store) (event_type : String) (payload : List (String × String))
    (call_sid : String) : Store :=
  { s with events := s.events ++ [⟨call_sid, event_type, payload⟩] }

/-- The keyword fields accepted by `store.upsert_lead` (`**fields`);
`none` models an absent keyword argument. -/
structure LeadFields where
  interest : Option String := none
  price_range : Option String := none
  timing : Option String := none
  condition : Option String := none
  owner_status : Option String := none
deriving Repr, DecidableEq

/-- One iteration of `store.upsert_lead`'s merge loop:
`if v not in (None, ""): setattr(lead, k, v)`. -/
def mergeField (old : String) (v : Option String) : String :=
  match v with
  | none => old
  | some s => if s = "" then old else s

/-- Merge incoming fields into an existing lead (the `for k, v in
fields.items()` loop of `store.upsert_lead`). -/
def applyFields (l : Lead) (f : LeadFields) : Lead :=
  { l with
    interest := mergeField l.interest f.interest,
    price_range := mergeField l.price_range f.price_range,
    timing := mergeField l.timing f.timing,
    condition := mergeField l.condition f.condition,
    owner_status := mergeField l.owner_status f.owner_status }

/-- In-place mutation of the row found by a query: replace the first list
element satisfying `p`. -/
def replaceFirst (p : Lead → Bool) (new : Lead) : List Lead → List Lead
  | [] => []
  | l :: rest => if p l then new :: rest else l :: replaceFirst p new rest

/-- `store.find_lead_by_phone`: first lead whose phone matches. -/
def find_lead_by_phone (s : Store) (phone : String) : Option Lead :=
  s.leads.find? (fun l => l.phone == phone)

/-- `store.upsert_lead`: create the lead when the phone is new (constructor
defaults fill the unsupplied fields), otherwise merge non-empty incoming
fields into the existing row.  Returns the refreshed lead. -/
def upsert_lead (s : Store) (phone : String) (f : LeadFields) : Store × Lead :=
  match s.leads.find? (fun l => l.phone == phone) with
  | none =>
      let lead : Lead :=
        { id := s.nextLeadId, phone := phone,
          interest := f.interest.getD "", price_range := f.price_range.getD "",
          timing := f.timing.getD "", condition := f.condition.getD "",
          owner_status := f.owner_status.getD "" }
      ({ s with leads := s.leads ++ [lead], nextLeadId := s.nextLeadId + 1 }, lead)
  | some lead =>
      let lead' := applyFields lead f
      ({ s with leads := replaceFirst (fun l => l.phone == phone) lead' s.leads }, lead')

/-- `s.get(Lead, lead_id)`: lookup by primary key. -/
def leadById (s : Store) (i : Nat) : Option Lead :=
  s.leads.find? (fun l => l.id == i)

/-- `store.mark_qualified`: set the `qualified` flag when the lead exists. -/
def mark_qualified (s : Store) (lead_id : Nat) (is_qualified : Bool) : Store :=
  match leadById s lead_id with
  | none => s
  | some lead =>
      let lead' : Lead := { lead with qualified := is_qualified }
      { s with leads := replaceFirst (fun l => l.id == lead_id) lead' s.leads }

/-- `store.create_callback`: insert a `Callback` row, defaulting an empty
window to `"next business day"` (`window or "next business day"`). -/
def create_callback (s : Store) (lead_id : Nat) (window : String) (notes : String) :
    Store × Callback :=
  let cb : Callback :=
    { id := s.nextCallbackId, lead_id := lead_id,
      window := if window = "" then "next business day" else window, notes := notes }
  ({ s with callbacks := s.callbacks ++ [cb], nextCallbackId := s.nextCallbackId + 1 }, cb)

/-- Count the audit events of one kind in an event list. -/
def countEvents (ty : String) (evs : List CallEvent) : Nat :=
  (evs.filter (fun e => e.event_type == ty)).length

/-- The analysis dictionary produced by parsing the LLM reply in
`VanessaBrain.ingest_user_text`; `none` models an absent key, so
`analysis.get(k, d)` is `(·.getD d)` and `analysis.get(k) or ""` is
`(·.getD "")` (field values are strings throughout this codebase). -/
structure Analysis where
  interest : Option String := none
  price_range : Option String := none
  timing : Option String := none
  condition : Option String := none
  owner_status : Option String := none
  callback_window : Option String := none
  notes : Option String := none
deriving Repr, DecidableEq

/-- Shape of the raw LLM reply text as seen by `json.loads(output_text.strip())`:
either it is not JSON at all, or it parses to a non-object, or it parses to an
object whose string fields are given (absent keys are `none`). -/
inductive RawOutput where
  | notJson (text : String)
  | jsonNonObject (text : String)
  | jsonObject (text : String) (fields : Analysis)
deriving Repr, DecidableEq

def RawOutput.text : RawOutput → String
  | .notJson t => t
  | .jsonNonObject t => t
  | .jsonObject t _ => t

/-- The substitute record built in the `except` branch of
`VanessaBrain.ingest_user_text` (lines 88-93). -/
def fallbackAnalysis : Analysis :=
  { interest := some "unknown", price_range := some "", timing := some "",
    condition := some "", owner_status := some "unknown",
    callback_window := some "", notes := some "" }

/-- The try/except parse step of `VanessaBrain.ingest_user_text`: a parsed
object is used as-is, anything else degrades to `fallbackAnalysis`. -/
def extract_analysis : RawOutput → Analysis
  | .jsonObject _ a => a
  | .notJson _ => fallbackAnalysis
  | .jsonNonObject _ => fallbackAnalysis

/-- `VanessaBrain._update_lead`: every field is passed explicitly as
`analysis.get(k, "")`, so each keyword argument is present (a `some`). -/
def analysisFields (a : Analysis) : LeadFields :=
  { interest := some (a.interest.getD ""),
    price_range := some (a.price_range.getD ""),
    timing := some (a.timing.getD ""),
    condition := some (a.condition.getD ""),
    owner_status := some (a.owner_status.getD "") }

/-- `vanessa.ConversationState` (history entries are (role, content)). -/
structure ConversationState where
  phone : String
  call_sid : String := ""
  history : List (String × String) := []
  elapsed_sec : Nat := 0
  closed : Bool := false
  outcome : Option String := none
  last_response_id : Option String := none
deriving Repr, DecidableEq

/-- The outcome dictionaries returned by `VanessaBrain._decide_and_apply`
(`None` is modelled as `Option.none` at the use sites). -/
inductive Outcome where
  | dnc (message : String)
  | callback (callback_id : Nat) (window : String) (message : String)
  | transfer (message : String)
deriving Repr, DecidableEq

/-- The `"type"` entry of an outcome dictionary. -/
def Outcome.type : Outcome → String
  | .dnc _ => "dnc"
  | .callback _ _ _ => "callback"
  | .transfer _ => "transfer"

def dncMessage : String := "Understood—removing you from our list. Have a great day."
def callbackMessage : String := "We’ll call you back then. Thank you!"
def transferMessage : String := "Let me connect you with my acquisitions lead now for numbers."
def timeoutDncMessage : String := "Thanks for your time—no worries, we’ll remove you from our list."

/-- The local `interest = (analysis.get("interest") or "").lower().strip()`
of `VanessaBrain._decide_and_apply`. -/
def interest_tag (a : Analysis) : String :=
  py_strip (py_lower (a.interest.getD ""))

/-- The local `price_ok = bool((analysis.get("price_range") or "").strip())`. -/
def price_ok (a : Analysis) : Prop :=
  py_strip (a.price_range.getD "") ≠ ""

instance (a : Analysis) : Decidable (price_ok a) :=
  inferInstanceAs (Decidable (py_strip (a.price_range.getD "") ≠ ""))

/-- The local `time_ok = bool((analysis.get("timing") or "").strip())`. -/
def time_ok (a : Analysis) : Prop :=
  py_strip (a.timing.getD "") ≠ ""

instance (a : Analysis) : Decidable (time_ok a) :=
  inferInstanceAs (Decidable (py_strip (a.timing.getD "") ≠ ""))

/-- `VanessaBrain._decide_and_apply` (lines 48-71), branch for branch
(the locals `interest`, `price_ok`, `time_ok` are the defs above).
It reads `self.state` for `elapsed_sec` and `call_sid`, performs
its side effects on the store, and returns the outcome dictionary
(`none` = fall-through `return None`). -/
def decide_and_apply (st : ConversationState) (s : Store) (a : Analysis) (lead_id : Nat) :
    Store × Option Outcome :=
  if interest_tag a = "dnc" ∨ interest_tag a = "no" then
    (save_event s "OUTCOME_DNC"
      [("lead_id", toString lead_id), ("reason", a.notes.getD "")] st.call_sid,
     some (Outcome.dnc dncMessage))
  else if interest_tag a = "later" then
    let r := create_callback s lead_id (a.callback_window.getD "next business day") (a.notes.getD "")
    (save_event r.1 "OUTCOME_CALLBACK"
      [("lead_id", toString lead_id), ("callback_id", toString r.2.id), ("window", r.2.window)]
      st.call_sid,
     some (Outcome.callback r.2.id r.2.window callbackMessage))
  else if (interest_tag a = "yes" ∨ interest_tag a = "maybe")
      ∧ (price_ok a ∨ time_ok a ∨ st.elapsed_sec ≥ 90) then
    let s1 := mark_qualified s lead_id true
    (save_event s1 "OUTCOME_TRANSFER" [("lead_id", toString lead_id)] st.call_sid,
     some (Outcome.transfer transferMessage))
  else if st.elapsed_sec ≥ 90 then
    (save_event s "OUTCOME_DNC"
      [("lead_id", toString lead_id), ("reason", "no_clear_interest_within_timebox")] st.call_sid,
     some (Outcome.dnc timeoutDncMessage))
  else
    (s, none)

/-- The dictionary built by `VanessaBrain._lead_snapshot`. -/
structure LeadSnapshot where
  id : Nat
  phone : String
  interest : String
  price_range : String
  timing : String
  condition : String
  owner_status : String
  qualified : Bool
deriving Repr, DecidableEq

/-- `VanessaBrain._lead_snapshot`: `{}` (here `none`) when the lead is
missing, otherwise the projected dictionary. -/
def lead_snapshot (s : Store) (phone : String) : Option LeadSnapshot :=
  match find_lead_by_phone s phone with
  | none => none
  | some l => some ⟨l.id, l.phone, l.interest, l.price_range, l.timing,
      l.condition, l.owner_status, l.qualified⟩

/-- The dictionary returned by a non-short-circuited `ingest_user_text`
call; `outcome = none` models the `{"type": "continue"}` default. -/
structure IngestOk where
  lead : Option LeadSnapshot
  analysis : Analysis
  outcome : Option Outcome
  elapsed_sec : Nat
deriving Repr, DecidableEq

/-- Return value of `VanessaBrain.ingest_user_text`: either the
`{"status":"closed", "outcome": ...}` short-circuit or a full turn result. -/
inductive IngestResult where
  | closedResult (outcome : Option String)
  | turn (r : IngestOk)
deriving Repr, DecidableEq

/-- `VanessaBrain.ingest_user_text` (lines 73-111).  The external LLM call
`call_llm_text` is modelled by passing its reply (`raw`, already classified
by parse shape) and the new response id as inputs.  Returns the updated
conversation state, the updated store, and the result dictionary. -/
def ingest_user_text (st : ConversationState) (s : Store) (text : String)
    (raw : RawOutput) (resp_id : String) (approx_seconds : Nat := 8) :
    ConversationState × Store × IngestResult :=
  if st.closed then
    (st, s, IngestResult.closedResult st.outcome)
  else
    let st1 : ConversationState := { st with history := st.history ++ [("user", text)] }
    let s1 := save_event s "TURN"
      [("from", "user"), ("text", text), ("elapsed", toString st1.elapsed_sec)] st1.call_sid
    let st2 : ConversationState :=
      { st1 with elapsed_sec := st1.elapsed_sec + approx_seconds,
                 last_response_id := some resp_id }
    let s2 := save_event s1 "RAW_LLM"
      [("text", raw.text), ("response_id", resp_id)] st2.call_sid
    let analysis := extract_analysis raw
    let s3 := (upsert_lead s2 st2.phone (analysisFields analysis)).1
    match lead_snapshot s3 st2.phone with
    | none =>
        (st2, s3, IngestResult.turn ⟨none, analysis, none, st2.elapsed_sec⟩)
    | some li =>
        if li.id ≠ 0 then
          let r := decide_and_apply st2 s3 analysis li.id
          match r.2 with
          | some o =>
              let st3 : ConversationState :=
                { st2 with outcome := some o.type, closed := true }
              (st3, r.1, IngestResult.turn
                ⟨lead_snapshot r.1 st2.phone, analysis, some o, st2.elapsed_sec⟩)
          | none =>
              (st2, r.1, IngestResult.turn ⟨some li, analysis, none, st2.elapsed_sec⟩)
        else
          (st2, s3, IngestResult.turn ⟨some li, analysis, none, st2.elapsed_sec⟩)

/-! Streaming path: `OpenAIRealtimeBridge` and the `media_stream` websocket
handler.  Websocket sends toward the reasoning session are modelled by a
failure predicate over the kinds of messages the bridge sends; a failing
send raises, carrying the store written so far out as the exception path. -/

/-- The kinds of messages the bridge sends to the reasoning session. -/
inductive SendKind where
  | sessionUpdate
  | bufferCreate
  | bufferAppend
  | responseCreate
  | bufferCommit
deriving Repr, DecidableEq

/-- Arguments of a reasoning-session tool call (`ev["arguments"]`);
`none` models an absent key. -/
structure ToolArgs where
  interest : Option String := none
  price_range : Option String := none
  timing : Option String := none
  condition : Option String := none
  owner_status : Option String := none
  callback_window : Option String := none
  notes : Option String := none
  consent : Option Bool := none
deriving Repr, DecidableEq

/-- Serialization of tool-call arguments into the `AI_TOOL_CALL`
audit payload. -/
def toolArgsPayload (args : ToolArgs) : List (String × String) :=
  [("interest", args.interest.getD ""), ("price_range", args.price_range.getD ""),
   ("timing", args.timing.getD ""), ("condition", args.condition.getD ""),
   ("owner_status", args.owner_status.getD ""),
   ("callback_window", args.callback_window.getD ""), ("notes", args.notes.getD ""),
   ("consent", toString (args.consent.getD false))]

/-- Events received from the reasoning session during a drain. -/
inductive AiEvent where
  | outputTextDelta (text : String)
  | functionCall (name : String) (args : ToolArgs)
  | completed
  | error (info : String)
  | other (ty : String)
deriving Repr, DecidableEq

/-- Python truthiness of `args.get("callback_window")`. -/
def windowTruthy : Option String → Bool
  | none => false
  | some w => w ≠ ""

/-- The fields `_drain_ai_events` passes to `upsert_lead` on a
`lead_detect` tool call (each one `args.get(k, "")`). -/
def leadDetectFields (args : ToolArgs) : LeadFields :=
  { interest := some (args.interest.getD ""),
    price_range := some (args.price_range.getD ""),
    timing := some (args.timing.getD ""),
    condition := some (args.condition.getD ""),
    owner_status := some (args.owner_status.getD "") }

/-- The mutable part of `OpenAIRealtimeBridge`. -/
structure BridgeState where
  call_sid : String
  phone : String
  qualified : Bool := false
deriving Repr, DecidableEq

/-- Result of draining the reasoning-session event queue: the updated
bridge, the updated store, and the external actions triggered
(`"transfer"` for each `on_transfer` invocation). -/
structure DrainResult where
  bridge : BridgeState
  store : Store
  actions : List String
deriving Repr, DecidableEq

/-- `OpenAIRealtimeBridge._drain_ai_events` (lines 113-167).  The events
the websocket yields before the bounded wait times out are passed as a
list; an empty list models `asyncio.TimeoutError` on the first receive. -/
def drain_ai_events (b : BridgeState) (s : Store) : List AiEvent → DrainResult
  | [] => ⟨b, s, []⟩
  | AiEvent.outputTextDelta _ :: rest => drain_ai_events b s rest
  | AiEvent.completed :: _ => ⟨b, s, []⟩
  | AiEvent.error info :: _ => ⟨b, save_event s "AI_ERROR" [("error", info)] b.call_sid, []⟩
  | AiEvent.other _ :: rest => drain_ai_events b s rest
  | AiEvent.functionCall fn args :: rest =>
    let s1 := save_event s "AI_TOOL_CALL" (("name", fn) :: toolArgsPayload args) b.call_sid
    if fn = "lead_detect" then
      let s2 := (upsert_lead s1 b.phone (leadDetectFields args)).1
      let bs3 :=
        if args.interest = some "yes" ∨ args.interest = some "maybe" then
          let b' : BridgeState := { b with qualified := true }
          let r := upsert_lead s2 b.phone {}
          (b', mark_qualified r.1 r.2.id true)
        else (b, s2)
      let s4 :=
        if args.interest = some "later" ∧ windowTruthy args.callback_window = true then
          let r := upsert_lead bs3.2 b.phone {}
          let rc := create_callback r.1 r.2.id (args.callback_window.getD "") (args.notes.getD "")
          save_event rc.1 "OUTCOME_CALLBACK"
            [("window", args.callback_window.getD "")] b.call_sid
        else bs3.2
      drain_ai_events bs3.1 s4 rest
    else if fn = "request_transfer" then
      if args.consent = some true ∧ b.qualified = true then
        let s2 := save_event s1 "OUTCOME_TRANSFER" [("consent", "true")] b.call_sid
        let r := drain_ai_events b s2 rest
        ⟨r.bridge, r.store, "transfer" :: r.actions⟩
      else
        drain_ai_events b s1 rest
    else
      drain_ai_events b s1 rest

/-- Telephony media-stream events (already JSON-decoded). -/
inductive TwEvent where
  | start (callSid phone : String)
  | media (payload : String)
  | stop (info : String)
deriving Repr, DecidableEq

/-- Result of one `handle_twilio_event` call; `finalDrains` counts the
`_drain_ai_events(final=True)` invocations it performed. -/
structure HandleResult where
  bridge : BridgeState
  store : Store
  actions : List String
  finalDrains : Nat
deriving Repr, DecidableEq

/-- `OpenAIRealtimeBridge.handle_twilio_event` (lines 82-111).  A failing
websocket send raises; the exception carries out the store written before
the raise.  `aiEvents` are the reasoning-session events available to a
drain performed during this call. -/
def handle_twilio_event (failing : SendKind → Bool) (b : BridgeState) (s : Store)
    (ev : TwEvent) (aiEvents : List AiEvent) : Except Store HandleResult :=
  match ev with
  | TwEvent.start callSid phone =>
      let s1 := save_event s "CALL_START" [("callSid", callSid), ("from", phone)] b.call_sid
      if failing SendKind.bufferCreate then Except.error s1
      else Except.ok ⟨b, s1, [], 0⟩
  | TwEvent.media _ =>
      if failing SendKind.bufferAppend then Except.error s
      else if failing SendKind.responseCreate then Except.error s
      else
        let r := drain_ai_events b s aiEvents
        Except.ok ⟨r.bridge, r.store, r.actions, 0⟩
  | TwEvent.stop info =>
      if failing SendKind.bufferCommit then Except.error s
      else
        let r := drain_ai_events b s aiEvents
        Except.ok ⟨r.bridge, save_event r.store "CALL_STOP" [("info", info)] b.call_sid,
          r.actions, 1⟩

/-- Result of the `media_stream` receive loop body (before the `finally`). -/
structure LoopResult where
  store : Store
  actions : List String
  finalDrains : Nat
  errored : Bool
  callSid : String
deriving Repr, DecidableEq

/-- The `while True` receive loop of `twilio_quart.media_stream`
(lines 70-97 up to the `except`).  `cs` is the loop-local `call_sid`
variable, `bOpt` the loop-local `bridge`.  On a `start` message the
handler logs `STREAM_START`, builds a bridge and sends the session
configuration (which can fail), and then also feeds the same message to
`handle_twilio_event`; every other message is fed to the bridge when one
exists.  An exception ends the loop with `errored = true`. -/
def media_stream_loop (failing : SendKind → Bool) (cs : String) (bOpt : Option BridgeState)
    (s : Store) : List (TwEvent × List AiEvent) → LoopResult
  | [] => ⟨s, [], 0, false, cs⟩
  | (ev, aiEvents) :: rest =>
    match ev, bOpt with
    | TwEvent.start callSid phone, _ =>
        let s1 := save_event s "STREAM_START" [("from", phone)] callSid
        let b : BridgeState := { call_sid := callSid, phone := phone }
        if failing SendKind.sessionUpdate then ⟨s1, [], 0, true, callSid⟩
        else
          match handle_twilio_event failing b s1 ev aiEvents with
          | Except.error s2 => ⟨s2, [], 0, true, callSid⟩
          | Except.ok r =>
              let k := media_stream_loop failing callSid (some r.bridge) r.store rest
              ⟨k.store, r.actions ++ k.actions, r.finalDrains + k.finalDrains,
                k.errored, k.callSid⟩
    | _, none => media_stream_loop failing cs none s rest
    | _, some b =>
        match handle_twilio_event failing b s ev aiEvents with
        | Except.error s2 => ⟨s2, [], 0, true, cs⟩
        | Except.ok r =>
            let k := media_stream_loop failing cs (some r.bridge) r.store rest
            ⟨k.store, r.actions ++ k.actions, r.finalDrains + k.finalDrains,
              k.errored, k.callSid⟩

/-- Overall result of a `media_stream` websocket session. -/
structure StreamResult where
  store : Store
  actions : List String
  finalDrains : Nat
deriving Repr, DecidableEq

/-- `twilio_quart.media_stream` (lines 49-102): run the receive loop, log
`STREAM_ERROR` when it ended in an exception, and in the `finally` block
close the bridge and log exactly one `STREAM_CLOSED`. -/
def media_stream (failing : SendKind → Bool) (s : Store)
    (msgs : List (TwEvent × List AiEvent)) : StreamResult :=
  let r := media_stream_loop failing "" none s msgs
  let s1 := if r.errored then save_event r.store "STREAM_ERROR" [("error", "")] r.callSid
            else r.store
  ⟨save_event s1 "STREAM_CLOSED" [] r.callSid, r.actions, r.finalDrains⟩

/-! Example fixtures used by witnesses and counterexamples. -/

def exLead : Lead := { id := 1, phone := "p1", price_range := "350-380k" }
def exStore : Store := { leads := [exLead], nextLeadId := 2 }
def exState : ConversationState := { phone := "p1", call_sid := "CA1" }
def exBridge : BridgeState := { call_sid := "CA1", phone := "p1" }

/-! Store framing lemmas. -/

@[simp] theorem save_event_events (s : Store) (ty : String) (p : List (String × String))
    (c : String) : (save_event s ty p c).events = s.events ++ [⟨c, ty, p⟩] := rfl

@[simp] theorem save_event_leads (s : Store) (ty : String) (p : List (String × String))
    (c : String) : (save_event s ty p c).leads = s.leads := rfl

@[simp] theorem save_event_callbacks (s : Store) (ty : String) (p : List (String × String))
    (c : String) : (save_event s ty p c).callbacks = s.callbacks := rfl

@[simp] theorem upsert_lead_events (s : Store) (phone : String) (f : LeadFields) :
    (upsert_lead s phone f).1.events = s.events := by
  unfold upsert_lead
  split <;> rfl

@[simp] theorem upsert_lead_callbacks (s : Store) (phone : String) (f : LeadFields) :
    (upsert_lead s phone f).1.callbacks = s.callbacks := by
  unfold upsert_lead
  split <;> rfl

@[simp] theorem mark_qualified_events (s : Store) (i : Nat) (q : Bool) :
    (mark_qualified s i q).events = s.events := by
  unfold mark_qualified
  split <;> rfl

@[simp] theorem mark_qualified_callbacks (s : Store) (i : Nat) (q : Bool) :
    (mark_qualified s i q).callbacks = s.callbacks := by
  unfold mark_qualified
  split <;> rfl

@[simp] theorem create_callback_events (s : Store) (i : Nat) (w n : String) :
    (create_callback s i w n).1.events = s.events := rfl

@[simp] theorem create_callback_callbacks (s : Store) (i : Nat) (w n : String) :
    (create_callback s i w n).1.callbacks
      = s.callbacks ++ [(create_callback s i w n).2] := rfl

@[simp] theorem countEvents_nil (ty : String) : countEvents ty [] = 0 := rfl

@[simp] theorem countEvents_cons (ty : String) (e : CallEvent) (l : List CallEvent) :
    countEvents ty (e :: l) = (if e.event_type == ty then 1 else 0) + countEvents ty l := by
  unfold countEvents
  cases h : e.event_type == ty <;> simp [List.filter, h, Nat.add_comm]

@[simp] theorem countEvents_append (ty : String) (l1 l2 : List CallEvent) :
    countEvents ty (l1 ++ l2) = countEvents ty l1 + countEvents ty l2 := by
  simp [countEvents, List.filter_append]

@[simp] theorem countEvents_singleton (ty : String) (e : CallEvent) :
    countEvents ty [e] = if e.event_type == ty then 1 else 0 := by
  unfold countEvents
  cases h : e.event_type == ty <;> simp [List.filter, h]

/-- Replacing the found element in place preserves findability: the query
that found the old row finds the replacement. -/
theorem find?_replaceFirst {p : Lead → Bool} {new : Lead} {ls : List Lead} {l : Lead}
    (hf : ls.find? p = some l) (hn : p new = true) :
    (replaceFirst p new ls).find? p = some new := by
  induction ls with
  | nil => simp at hf
  | cons x xs ih =>
    cases hx : p x with
    | true =>
        simp [replaceFirst, hx, List.find?_cons_of_pos, hn]
    | false =>
        rw [List.find?_cons_of_neg _ (by simp [hx])] at hf
        have := ih hf
        simpa [replaceFirst, hx, List.find?_cons_of_neg _ (show ¬ p x = true by simp [hx])]
          using this

/-- C1: whenever the extracted interest field, lowercased and stripped, is
`"dnc"` or `"no"`, the Decision Policy returns the dnc outcome, whatever
the other fields, the elapsed seconds, or the store contain; the dnc branch
is checked before the later/transfer/timeout branches, so a stated
non-interest always wins. -/
theorem C1_dnc_priority (st : ConversationState) (s : Store) (a : Analysis) (lead_id : Nat)
    (h : interest_tag a = "dnc" ∨ interest_tag a = "no") :
    (decide_and_apply st s a lead_id).2 = some (Outcome.dnc dncMessage) := by
  unfold decide_and_apply
  rcases h with h | h <;> simp [h]

/-- Witness for C1 at a concrete record: interest `" DNC "` with a
non-empty price range and large elapsed time still yields the dnc
outcome. -/
theorem C1_dnc_priority_witness :
    interest_tag { interest := some " DNC ", price_range := some "400k" } = "dnc" ∧
    (decide_and_apply ({ exState with elapsed_sec := 120 }) exStore
        { interest := some " DNC ", price_range := some "400k" } 1).2
      = some (Outcome.dnc dncMessage) :=
  ⟨by decide, C1_dnc_priority _ _ _ _ (Or.inl (by decide))⟩

/-- C2: once the conversation state is closed, a further
`ingest_user_text` call returns the stored outcome tag and changes neither
the conversation state nor the store: no event, lead, or callback write
happens (idempotence-after-close). -/
theorem C2_closed_idempotent (st : ConversationState) (s : Store) (text : String)
    (raw : RawOutput) (resp_id : String) (k : Nat) (h : st.closed = true) :
    ingest_user_text st s text raw resp_id k
      = (st, s, IngestResult.closedResult st.outcome) := by
  unfold ingest_user_text
  simp [h]

/-- Witness for C2: a closed state with stored outcome `"dnc"` is returned
unchanged together with the untouched store. -/
theorem C2_closed_idempotent_witness :
    ({ exState with closed := true, outcome := some "dnc" } : ConversationState).closed = true ∧
    ingest_user_text ({ exState with closed := true, outcome := some "dnc" }) exStore
        "still here?" (RawOutput.notJson "raw") "resp-2" 8
      = ({ exState with closed := true, outcome := some "dnc" }, exStore,
         IngestResult.closedResult (some "dnc")) :=
  ⟨rfl, C2_closed_idempotent _ _ _ _ _ _ rfl⟩

/-- C6 counterexample: on unparseable backend output the substituted
record sets `owner_status` to `"unknown"`, not to the empty string, so
the claim "every missing or unparseable field defaults to the empty
string except interest" fails at this input. -/
theorem C6_counterexample :
    (extract_analysis (RawOutput.notJson "sorry, what was that?")).owner_status
        = some "unknown" ∧
    (extract_analysis (RawOutput.notJson "sorry, what was that?")).owner_status
        ≠ some "" := by
  constructor
  · rfl
  · decide

/-- C6 amended: the extractor is total (never raises) and on any
non-object or unparseable reply substitutes the fixed record whose
`interest` AND `owner_status` default to `"unknown"` while the other five
fields default to the empty string; a parsed JSON object is passed
through as-is (its missing keys default at the use sites). -/
theorem C6_fail_soft_defaults (raw : RawOutput) :
    extract_analysis raw =
      (match raw with
       | RawOutput.jsonObject _ a => a
       | _ =>
         { interest := some "unknown", price_range := some "", timing := some "",
           condition := some "", owner_status := some "unknown",
           callback_window := some "", notes := some "" }) := by
  cases raw <;> rfl

/-- C7 counterexample: evaluating `_decide_and_apply` on an interest
`"later"` record is not side-effect free — it creates a Callback row and
writes an `OUTCOME_CALLBACK` audit event itself, refuting "writes no
events, creates no Callback rows". -/
theorem C7_counterexample :
    ((decide_and_apply exState exStore { interest := some "later" } 1).1 ≠ exStore) ∧
    ((decide_and_apply exState exStore { interest := some "later" } 1).1).callbacks.length
        = exStore.callbacks.length + 1 ∧
    countEvents "OUTCOME_CALLBACK"
        ((decide_and_apply exState exStore { interest := some "later" } 1).1).events
        = countEvents "OUTCOME_CALLBACK" exStore.events + 1 := by
  refine ⟨?_, ?_, ?_⟩ <;> decide

/-- C7 amended: the decide-and-apply operation is side-effect free exactly
on the continue path — whenever it returns no outcome it leaves the store
untouched; on every terminal branch it applies the branch's side effects
(outcome event, callback row, qualified flag) itself rather than leaving
them all to the caller. -/
theorem C7_continue_pure (st : ConversationState) (s : Store) (a : Analysis) (i : Nat)
    (h : (decide_and_apply st s a i).2 = none) :
    (decide_and_apply st s a i).1 = s := by
  by_cases h1 : interest_tag a = "dnc" ∨ interest_tag a = "no"
  · simp [decide_and_apply, h1] at h
  · by_cases h2 : interest_tag a = "later"
    · simp [decide_and_apply, h1, h2] at h
    · by_cases h3 : (interest_tag a = "yes" ∨ interest_tag a = "maybe")
          ∧ (price_ok a ∨ time_ok a ∨ st.elapsed_sec ≥ 90)
      · simp [decide_and_apply, h1, h2, h3] at h
      · by_cases h4 : st.elapsed_sec ≥ 90
        · exfalso
          by_cases h5 : interest_tag a = "yes" ∨ interest_tag a = "maybe"
          · exact h3 ⟨h5, Or.inr (Or.inr h4)⟩
          · simp [decide_and_apply, h1, h2, h4, h5] at h
        · by_cases h5 : (interest_tag a = "yes" ∨ interest_tag a = "maybe")
              ∧ (price_ok a ∨ time_ok a)
          · exact absurd ⟨h5.1, h5.2.elim Or.inl (fun t => Or.inr (Or.inl t))⟩ h3
          · simp [decide_and_apply, h1, h2, h4, h5]

/-- Witness for C7: a below-timebox `"unknown"` record decides to continue
and leaves the store unchanged. -/
theorem C7_continue_pure_witness :
    (decide_and_apply exState exStore { interest := some "unknown" } 1).2 = none ∧
    (decide_and_apply exState exStore { interest := some "unknown" } 1).1 = exStore :=
  ⟨by decide, C7_continue_pure _ _ _ _ (by decide)⟩

/-- C3: upserting partial fields into an existing lead merges on write:
each incoming field that is absent or the empty string leaves the stored
value unchanged, and each non-empty incoming field overwrites it
(`mergeField` is exactly that rule); identity, phone and the qualified
flag are untouched. -/
theorem C3_merge_on_write (s : Store) (phone : String) (f : LeadFields) (lead : Lead)
    (h : find_lead_by_phone s phone = some lead) :
    find_lead_by_phone (upsert_lead s phone f).1 phone =
      some { lead with
        interest := mergeField lead.interest f.interest,
        price_range := mergeField lead.price_range f.price_range,
        timing := mergeField lead.timing f.timing,
        condition := mergeField lead.condition f.condition,
        owner_status := mergeField lead.owner_status f.owner_status } := by
  unfold find_lead_by_phone at h ⊢
  have hp := List.find?_some (p := fun l => l.phone == phone) (a := lead) h
  unfold upsert_lead
  rw [h]
  exact find?_replaceFirst h hp

/-- Witness for C3, the spec's scenario: with `price_range` stored as
`"350-380k"`, upserting `price_range=""` leaves `"350-380k"`, and
upserting `"400k"` changes it to `"400k"`. -/
theorem C3_merge_on_write_witness :
    find_lead_by_phone exStore "p1" = some exLead ∧
    find_lead_by_phone (upsert_lead exStore "p1" { price_range := some "" }).1 "p1"
      = some { exLead with price_range := mergeField exLead.price_range (some "") } ∧
    mergeField exLead.price_range (some "") = "350-380k" ∧
    find_lead_by_phone (upsert_lead exStore "p1" { price_range := some "400k" }).1 "p1"
      = some { exLead with price_range := mergeField exLead.price_range (some "400k") } ∧
    mergeField exLead.price_range (some "400k") = "400k" :=
  ⟨by decide,
   C3_merge_on_write _ _ _ _ (by decide), by decide,
   C3_merge_on_write _ _ _ _ (by decide), by decide⟩

/-- C4: on a record with interest `yes`/`maybe` and a non-blank price
range, a non-blank timing, or elapsed time at or past the 90s timebox,
the Decision Policy returns the transfer outcome and the lead's
`qualified` flag is set and persisted in the store as part of applying
that outcome. -/
theorem C4_transfer_qualifies (st : ConversationState) (s : Store) (a : Analysis)
    (i : Nat) (lead : Lead)
    (hInt : interest_tag a = "yes" ∨ interest_tag a = "maybe")
    (hCond : price_ok a ∨ time_ok a ∨ st.elapsed_sec ≥ 90)
    (hLead : leadById s i = some lead) :
    (decide_and_apply st s a i).2 = some (Outcome.transfer transferMessage) ∧
    leadById (decide_and_apply st s a i).1 i = some { lead with qualified := true } := by
  have h1 : ¬(interest_tag a = "dnc" ∨ interest_tag a = "no") := by
    rcases hInt with h | h <;> simp [h]
  have h2 : ¬ interest_tag a = "later" := by
    rcases hInt with h | h <;> simp [h]
  have hfind : s.leads.find? (fun l => l.id == i) = some lead := hLead
  unfold decide_and_apply
  rw [if_neg h1, if_neg h2, if_pos (And.intro hInt hCond)]
  refine ⟨rfl, ?_⟩
  show ((mark_qualified s i true).leads).find? (fun l => l.id == i)
      = some { lead with qualified := true }
  have hp := List.find?_some (p := fun l => l.id == i) (a := lead) hfind
  unfold mark_qualified leadById
  rw [hfind]
  exact find?_replaceFirst hfind hp

/-- Witness for C4: interest `"maybe"` with price range `"370k"` at a
lead that exists in the store yields the transfer outcome and a stored
qualified flag. -/
theorem C4_transfer_qualifies_witness :
    (interest_tag { interest := some "maybe", price_range := some "370k" } = "maybe"
       ∨ False) ∧
    (price_ok { interest := some "maybe", price_range := some "370k" } ∨ False) ∧
    leadById exStore 1 = some exLead ∧
    (decide_and_apply exState exStore
        { interest := some "maybe", price_range := some "370k" } 1).2
      = some (Outcome.transfer transferMessage) ∧
    leadById (decide_and_apply exState exStore
        { interest := some "maybe", price_range := some "370k" } 1).1 1
      = some { exLead with qualified := true } := by
  refine ⟨Or.inl (by decide), Or.inl (by decide), by decide, ?_⟩
  exact C4_transfer_qualifies exState exStore _ 1 exLead (Or.inr (by decide))
    (Or.inl (by decide)) (by decide)

/-- C5: when no branch matches (interest not dnc/no/later and the
transfer condition fails), the Decision Policy returns continue and is
effect-free while the elapsed time is below the 90s timebox, and at or
past the timebox returns the dnc outcome variant carrying the distinct
reason code `no_clear_interest_within_timebox`, appending exactly one
`OUTCOME_DNC` audit event to the store in that evaluation. -/
theorem C5_timeout_or_continue (st : ConversationState) (s : Store) (a : Analysis) (i : Nat)
    (h1 : ¬(interest_tag a = "dnc" ∨ interest_tag a = "no"))
    (h2 : ¬ interest_tag a = "later")
    (h3 : ¬((interest_tag a = "yes" ∨ interest_tag a = "maybe")
        ∧ (price_ok a ∨ time_ok a ∨ st.elapsed_sec ≥ 90))) :
    (st.elapsed_sec < 90 → decide_and_apply st s a i = (s, none)) ∧
    (st.elapsed_sec ≥ 90 →
      (decide_and_apply st s a i).2 = some (Outcome.dnc timeoutDncMessage) ∧
      (decide_and_apply st s a i).1.events = s.events ++
        [⟨st.call_sid, "OUTCOME_DNC",
          [("lead_id", toString i), ("reason", "no_clear_interest_within_timebox")]⟩]) := by
  constructor
  · intro hlt
    unfold decide_and_apply
    rw [if_neg h1, if_neg h2, if_neg h3, if_neg (by omega : ¬ st.elapsed_sec ≥ 90)]
  · intro hge
    unfold decide_and_apply
    rw [if_neg h1, if_neg h2, if_neg h3, if_pos hge]
    exact ⟨rfl, rfl⟩

/-- Witness for C5: an `"unknown"` record with blank fields continues at
40s elapsed and produces the timeout dnc with its reason code at 96s. -/
theorem C5_timeout_or_continue_witness :
    (¬(interest_tag { interest := some "unknown" } = "dnc"
        ∨ interest_tag { interest := some "unknown" } = "no")) ∧
    (decide_and_apply ({ exState with elapsed_sec := 40 }) exStore
        { interest := some "unknown" } 1 = (exStore, none)) ∧
    ((decide_and_apply ({ exState with elapsed_sec := 96 }) exStore
        { interest := some "unknown" } 1).2 = some (Outcome.dnc timeoutDncMessage) ∧
      (decide_and_apply ({ exState with elapsed_sec := 96 }) exStore
        { interest := some "unknown" } 1).1.events = exStore.events ++
        [⟨"CA1", "OUTCOME_DNC",
          [("lead_id", "1"), ("reason", "no_clear_interest_within_timebox")]⟩]) := by
  refine ⟨by decide, ?_, ?_⟩
  · exact (C5_timeout_or_continue ({ exState with elapsed_sec := 40 }) exStore
      { interest := some "unknown" } 1 (by decide) (by decide) (by decide)).1 (by decide)
  · exact (C5_timeout_or_continue ({ exState with elapsed_sec := 96 }) exStore
      { interest := some "unknown" } 1 (by decide) (by decide) (by decide)).2 (by decide)

/-- Draining reasoning-session events never writes a `STREAM_CLOSED`
audit event: only the teardown in `media_stream` does. -/
theorem countClosed_drain (evs : List AiEvent) (b : BridgeState) (s : Store) :
    countEvents "STREAM_CLOSED" (drain_ai_events b s evs).store.events
      = countEvents "STREAM_CLOSED" s.events := by
  induction evs generalizing b s with
  | nil => rfl
  | cons ev rest ih =>
    cases ev with
    | outputTextDelta t => simpa [drain_ai_events] using ih b s
    | completed => rfl
    | error info => simp [drain_ai_events]
    | other ty => simpa [drain_ai_events] using ih b s
    | functionCall fn args =>
        by_cases hfn : fn = "lead_detect"
        · by_cases hint : args.interest = some "yes" ∨ args.interest = some "maybe" <;>
            by_cases hlater : args.interest = some "later"
                ∧ windowTruthy args.callback_window = true <;>
            simp [drain_ai_events, hfn, hint, hlater, ih]
        · by_cases hrt : fn = "request_transfer"
          · by_cases hc : args.consent = some true ∧ b.qualified = true <;>
              simp [drain_ai_events, hfn, hrt, hc, ih]
          · simp [drain_ai_events, hfn, hrt, ih]

/-- A single telephony event, handled on either the normal or the
exception path, never writes a `STREAM_CLOSED` audit event. -/
theorem countClosed_handle (failing : SendKind → Bool) (b : BridgeState) (s : Store)
    (ev : TwEvent) (ai : List AiEvent) :
    countEvents "STREAM_CLOSED"
      (match handle_twilio_event failing b s ev ai with
       | Except.error s2 => s2
       | Except.ok r => r.store).events
      = countEvents "STREAM_CLOSED" s.events := by
  cases ev with
  | start csid ph =>
      by_cases h1 : failing SendKind.bufferCreate <;>
        simp [handle_twilio_event, h1]
  | media payload =>
      by_cases h1 : failing SendKind.bufferAppend
      · simp [handle_twilio_event, h1]
      · by_cases h2 : failing SendKind.responseCreate <;>
          simp [handle_twilio_event, h1, h2, countClosed_drain]
  | stop info =>
      by_cases h1 : failing SendKind.bufferCommit <;>
        simp [handle_twilio_event, h1, countClosed_drain]

/-- The `media_stream` receive loop never writes a `STREAM_CLOSED` audit
event, on any path including exception exits. -/
theorem countClosed_loop (failing : SendKind → Bool) (msgs : List (TwEvent × List AiEvent))
    (cs : String) (bOpt : Option BridgeState) (s : Store) :
    countEvents "STREAM_CLOSED" (media_stream_loop failing cs bOpt s msgs).store.events
      = countEvents "STREAM_CLOSED" s.events := by
  induction msgs generalizing cs bOpt s with
  | nil => rfl
  | cons msg rest ih =>
    obtain ⟨ev, ai⟩ := msg
    cases ev with
    | start csid ph =>
        by_cases h1 : failing SendKind.sessionUpdate
        · simp [media_stream_loop, h1]
        · by_cases h2 : failing SendKind.bufferCreate
          · simp [media_stream_loop, handle_twilio_event, h1, h2]
          · simp [media_stream_loop, handle_twilio_event, h1, h2, ih]
    | media payload =>
        cases bOpt with
        | none => simpa [media_stream_loop] using ih cs none s
        | some b =>
            by_cases h1 : failing SendKind.bufferAppend
            · simp [media_stream_loop, handle_twilio_event, h1]
            · by_cases h2 : failing SendKind.responseCreate
              · simp [media_stream_loop, handle_twilio_event, h1, h2]
              · simp [media_stream_loop, handle_twilio_event, h1, h2, ih, countClosed_drain]
    | stop info =>
        cases bOpt with
        | none => simpa [media_stream_loop] using ih cs none s
        | some b =>
            by_cases h1 : failing SendKind.bufferCommit
            · simp [media_stream_loop, handle_twilio_event, h1]
            · simp [media_stream_loop, handle_twilio_event, h1, ih, countClosed_drain]

/-- Every `media_stream` session, whatever its messages and whatever
sends fail, emits exactly one `STREAM_CLOSED` audit event. -/
theorem countClosed_media_stream (failing : SendKind → Bool) (s : Store)
    (msgs : List (TwEvent × List AiEvent)) :
    countEvents "STREAM_CLOSED" (media_stream failing s msgs).store.events
      = countEvents "STREAM_CLOSED" s.events + 1 := by
  unfold media_stream
  by_cases he : (media_stream_loop failing "" none s msgs).errored <;>
    simp [he, countClosed_loop]

/-- The send failure predicate in which exactly the input-buffer commit
raises (the send performed first in the `stop` branch). -/
def failCommit : SendKind → Bool := fun k => decide (k = SendKind.bufferCommit)

/-- C8 counterexample: when the commit send raises on `stop`, the final
drain is skipped entirely (zero final drains, not one), refuting "the
error path still performs the drain"; the teardown still emits exactly
one `STREAM_CLOSED`. -/
theorem C8_counterexample :
    (media_stream failCommit emptyStore
        [(TwEvent.start "CA1" "p1", []), (TwEvent.stop "end", [])]).finalDrains = 0 ∧
    countEvents "STREAM_CLOSED" (media_stream failCommit emptyStore
        [(TwEvent.start "CA1" "p1", []), (TwEvent.stop "end", [])]).store.events = 1 := by
  constructor <;> decide

/-- C8 amended: teardown always emits exactly one `STREAM_CLOSED` audit
event, for every message trace and every send-failure pattern, including
the failing-commit case; the `stop` event triggers exactly one final
drain when its commit send succeeds, and zero final drains when the
commit send raises. -/
theorem C8_stop_drain_and_teardown (failing : SendKind → Bool) (s : Store)
    (csid ph info : String) (ai1 ai2 : List AiEvent)
    (h1 : failing SendKind.sessionUpdate = false)
    (h2 : failing SendKind.bufferCreate = false) :
    (∀ (g : SendKind → Bool) (s0 : Store) (msgs : List (TwEvent × List AiEvent)),
        countEvents "STREAM_CLOSED" (media_stream g s0 msgs).store.events
          = countEvents "STREAM_CLOSED" s0.events + 1) ∧
    (media_stream failing s [(TwEvent.start csid ph, ai1), (TwEvent.stop info, ai2)]).finalDrains
      = (if failing SendKind.bufferCommit = true then 0 else 1) := by
  refine ⟨fun g s0 msgs => countClosed_media_stream g s0 msgs, ?_⟩
  by_cases hc : failing SendKind.bufferCommit <;>
    simp [media_stream, media_stream_loop, handle_twilio_event, h1, h2, hc]

/-- Witness for C8: with no failing sends the canonical start/stop trace
performs exactly one final drain and one `STREAM_CLOSED`. -/
theorem C8_stop_drain_and_teardown_witness :
    ((fun _ => false) : SendKind → Bool) SendKind.sessionUpdate = false ∧
    ((fun _ => false) : SendKind → Bool) SendKind.bufferCreate = false ∧
    countEvents "STREAM_CLOSED" (media_stream (fun _ => false) emptyStore
        [(TwEvent.start "CA1" "p1", []), (TwEvent.stop "end", [])]).store.events
      = countEvents "STREAM_CLOSED" emptyStore.events + 1 ∧
    (media_stream (fun _ => false) emptyStore
        [(TwEvent.start "CA1" "p1", []), (TwEvent.stop "end", [])]).finalDrains
      = (if ((fun _ => false) : SendKind → Bool) SendKind.bufferCommit = true then 0 else 1) := by
  have h := C8_stop_drain_and_teardown (fun _ => false) emptyStore "CA1" "p1" "end" [] []
    rfl rfl
  exact ⟨rfl, rfl, h.1 _ emptyStore _, h.2⟩

/-- A `lead_detect` tool call whose interest is `yes` or `maybe` — the
only kind of event that sets the bridge's local qualified flag. -/
def isQualifyingDetect (ev : AiEvent) : Bool :=
  match ev with
  | AiEvent.functionCall fn args =>
      fn == "lead_detect" && (args.interest == some "yes" || args.interest == some "maybe")
  | _ => false

/-- The tool-call sequence on which both terminal side effects fire in a
single call: qualify, then schedule a callback, then transfer. -/
def c9Events : List AiEvent :=
  [AiEvent.functionCall "lead_detect" { interest := some "yes" },
   AiEvent.functionCall "lead_detect"
     { interest := some "later", callback_window := some "tomorrow 3pm" },
   AiEvent.functionCall "request_transfer" { consent := some true },
   AiEvent.completed]

/-- C9 counterexample: one drained tool-call sequence both creates a
Callback row and triggers the transfer redirect, so the two side effects
are not mutually exclusive within one streaming call. -/
theorem C9_counterexample :
    1 ≤ (drain_ai_events exBridge exStore c9Events).store.callbacks.length ∧
    "transfer" ∈ (drain_ai_events exBridge exStore c9Events).actions := by
  constructor <;> decide

/-- C9 amended: the bridge has no mutual-exclusion guard — a Callback row
and the transfer redirect can both fire in one call (see the
counterexample); what does hold is the qualification guard: starting from
an unqualified bridge, the transfer redirect fires only if the drained
sequence contains a `lead_detect` tool call with interest `yes` or
`maybe` (with caller consent), since only such a call sets the local
qualified flag that gates `request_transfer`. -/
theorem C9_transfer_needs_prior_qualification (evs : List AiEvent) (b : BridgeState)
    (s : Store) (hq : b.qualified = false)
    (ht : "transfer" ∈ (drain_ai_events b s evs).actions) :
    ∃ ev ∈ evs, isQualifyingDetect ev = true := by
  induction evs generalizing b s with
  | nil => simp [drain_ai_events] at ht
  | cons ev rest ih =>
    cases ev with
    | outputTextDelta t =>
        obtain ⟨e, he, hqe⟩ := ih b s hq (by simpa [drain_ai_events] using ht)
        exact ⟨e, List.mem_cons_of_mem _ he, hqe⟩
    | completed => simp [drain_ai_events] at ht
    | error info => simp [drain_ai_events] at ht
    | other ty =>
        obtain ⟨e, he, hqe⟩ := ih b s hq (by simpa [drain_ai_events] using ht)
        exact ⟨e, List.mem_cons_of_mem _ he, hqe⟩
    | functionCall fn args =>
        by_cases hfn : fn = "lead_detect"
        · by_cases hint : args.interest = some "yes" ∨ args.interest = some "maybe"
          · refine ⟨AiEvent.functionCall fn args, List.mem_cons_self _ _, ?_⟩
            subst hfn
            rcases hint with h | h <;> simp [isQualifyingDetect, h]
          · obtain ⟨e, he, hqe⟩ :=
              ih b _ hq (by simpa [drain_ai_events, hfn, hint] using ht)
            exact ⟨e, List.mem_cons_of_mem _ he, hqe⟩
        · by_cases hrt : fn = "request_transfer"
          · by_cases hc : args.consent = some true ∧ b.qualified = true
            · exact absurd hc.2 (by simp [hq])
            · obtain ⟨e, he, hqe⟩ :=
                ih b _ hq (by simpa [drain_ai_events, hfn, hrt, hc] using ht)
              exact ⟨e, List.mem_cons_of_mem _ he, hqe⟩
          · obtain ⟨e, he, hqe⟩ :=
              ih b _ hq (by simpa [drain_ai_events, hfn, hrt] using ht)
            exact ⟨e, List.mem_cons_of_mem _ he, hqe⟩

/-- The two-event sequence used to witness the qualification guard. -/
def c9WitnessEvents : List AiEvent :=
  [AiEvent.functionCall "lead_detect" { interest := some "maybe" },
   AiEvent.functionCall "request_transfer" { consent := some true }]

/-- Witness for C9: an unqualified bridge that does transfer must have
drained a qualifying `lead_detect`. -/
theorem C9_transfer_needs_prior_qualification_witness :
    exBridge.qualified = false ∧
    "transfer" ∈ (drain_ai_events exBridge emptyStore c9WitnessEvents).actions ∧
    ∃ ev ∈ c9WitnessEvents, isQualifyingDetect ev = true :=
  ⟨rfl, by decide,
   C9_transfer_needs_prior_qualification c9WitnessEvents exBridge emptyStore rfl (by decide)⟩

/-- C10: in the streaming bridge a `lead_detect` with interest `later`
and a missing or empty callback window creates no Callback row and logs
no `OUTCOME_CALLBACK` event (no default window is applied), while the
turn-based Decision Policy on interest `later` with the same missing or
empty window always creates exactly one Callback whose window is
defaulted to `"next business day"` and logs the outcome event. -/
theorem C10_later_empty_window (b : BridgeState) (s : Store) (args : ToolArgs)
    (hi : args.interest = some "later")
    (hw : args.callback_window = none ∨ args.callback_window = some "") :
    ((drain_ai_events b s [AiEvent.functionCall "lead_detect" args]).store.callbacks
        = s.callbacks ∧
     countEvents "OUTCOME_CALLBACK"
        (drain_ai_events b s [AiEvent.functionCall "lead_detect" args]).store.events
       = countEvents "OUTCOME_CALLBACK" s.events) ∧
    (∀ (st : ConversationState) (a : Analysis) (i : Nat),
      interest_tag a = "later" →
      (a.callback_window = none ∨ a.callback_window = some "") →
      (decide_and_apply st s a i).1.callbacks
          = s.callbacks ++ [⟨s.nextCallbackId, i, "next business day", a.notes.getD ""⟩] ∧
      countEvents "OUTCOME_CALLBACK" (decide_and_apply st s a i).1.events
          = countEvents "OUTCOME_CALLBACK" s.events + 1) := by
  constructor
  · have hint : ¬(args.interest = some "yes" ∨ args.interest = some "maybe") := by
      simp [hi]
    have hlater : ¬(args.interest = some "later" ∧ windowTruthy args.callback_window = true) := by
      rcases hw with h | h <;> simp [windowTruthy, h]
    constructor <;> simp [drain_ai_events, hint, hlater]
  · intro st a i hia hwa
    have h1 : ¬(interest_tag a = "dnc" ∨ interest_tag a = "no") := by simp [hia]
    unfold decide_and_apply
    rw [if_neg h1, if_pos hia]
    refine ⟨?_, ?_⟩ <;> rcases hwa with h | h <;> simp [create_callback, h]

/-- Witness for C10: interest `later` with an absent window in the
stream creates no callback, while the turn-based path with an empty
window creates one with the default window. -/
theorem C10_later_empty_window_witness :
    (({ interest := some "later" } : ToolArgs).interest = some "later") ∧
    ((drain_ai_events exBridge exStore
        [AiEvent.functionCall "lead_detect" { interest := some "later" }]).store.callbacks
      = exStore.callbacks) ∧
    interest_tag { interest := some "later", callback_window := some "" } = "later" ∧
    ((decide_and_apply exState exStore
        { interest := some "later", callback_window := some "" } 1).1.callbacks
      = exStore.callbacks ++ [⟨exStore.nextCallbackId, 1, "next business day",
          ({ interest := some "later", callback_window := some "" }
            : Analysis).notes.getD ""⟩]) := by
  have h := C10_later_empty_window exBridge exStore { interest := some "later" }
    rfl (Or.inl rfl)
  exact ⟨rfl, h.1.1, by decide,
    (h.2 exState { interest := some "later", callback_window := some "" } 1
      (by decide) (Or.inr rfl)).1⟩

end Acq
